import Mathlib

/-!
Verification development for the data-analyst agent repository.

The embedding models, from the source:
* `src/tools.py` — the `PandasCodeExecutor` sandbox (`execute_code`), the
  statistics part of `get_dataframe_info`, and `suggest_analysis_steps`;
* `src/agent.py` — `DataAnalystAgent._should_continue` and the fault handling
  of `DataAnalystAgent.run`.

Tables (pandas DataFrames) are modelled as lists of typed columns.  Because
the sandbox hands the executing snippet *references* to live DataFrame
objects and copies them explicitly with `.copy()`, DataFrame objects live in
an explicit store (a list of table values) and a DataFrame-typed Python value
is a reference (an index) into that store.  A snippet of Python code is
modelled by its observable behaviour: a function from the initial execution
namespace and store to an outcome, which is either normal termination or a
raised fault, together with the final namespace, the final store, and the
text written to stdout and stderr.
-/

/-- A single cell of a column: either null (NaN) or a simple value. -/
inductive Cell where
  | null
  | intVal (n : Int)
  | strVal (s : String)
  | boolVal (b : Bool)
deriving DecidableEq, Repr

/-- The pandas dtype of a column, as far as the source discriminates dtypes:
`select_dtypes(include=[np.number])` selects exactly the `numeric` columns and
`select_dtypes(include=[ 'object'])` selects exactly the `object` columns.
A `boolean` column (produced by `pd.read_csv` for a column of True/False
values) is selected by neither: `bool` is not a subtype of `np.number` and is
not the `object` dtype. -/
inductive Dtype where
  | numeric
  | object
  | boolean
deriving DecidableEq, Repr

/-- A named, typed column of cells. -/
structure Column where
  name : String
  dtype : Dtype
  cells : List Cell
deriving DecidableEq, Repr

/-- A table (pandas DataFrame value): a list of columns. -/
structure Table where
  cols : List Column
deriving DecidableEq, Repr

/-- Row count of a table (`len(df)` / `df.shape[0]`). -/
def Table.nrows (t : Table) : Nat :=
  match t.cols with
  | [] => 0
  | c :: _ => c.cells.length

/-- Column count of a table (`df.shape[1]`). -/
def Table.ncols (t : Table) : Nat := t.cols.length

/-- The store of live DataFrame objects; a DataFrame reference is an index. -/
abbrev Store := List Table

/-- External library modules bound into the sandbox namespace. -/
inductive ModuleName where
  | pandas
  | numpy
deriving DecidableEq, Repr

/-- Modelled from the source's own use of the bound modules: `tools.py` calls
`pd.read_csv(csv_file_path)` — a filesystem read — on the very module object
that `execute_code` binds under the name `pd`, and numpy likewise provides
file access (`np.load`, `np.save`).  So both module bindings expose a
filesystem primitive to the executing snippet. -/
def ModuleName.providesFilesystemAccess : ModuleName → Bool := fun _ => true

/-- A Python value bindable in the sandbox's execution namespace.  Simple
scalar and collection values (the kinds `execute_code` copies into its
`variables` map) are `pyStr`, `pyInt`, `pyBool` and `pyDict`; a DataFrame is
a `table` reference into the store; `pd` and `np` are `pyModule` bindings;
`builtinsDict` is the value bound under `__builtins__`; `describable` stands
for any other object carrying a `describe` attribute (a pandas Series, say),
recorded by its string rendering. -/
inductive PyVal where
  | table (ref : Nat)
  | pyStr (s : String)
  | pyInt (n : Int)
  | pyBool (b : Bool)
  | pyDict (entries : List (String × Int))
  | pyModule (m : ModuleName)
  | builtinsDict (names : List String)
  | describable (rendering : String)
deriving DecidableEq, Repr

/-- Whether a Python value is a DataFrame (tabular) value. -/
def PyVal.isTable : PyVal → Bool
  | .table _ => true
  | _ => false

/-- An execution namespace: Python name to value bindings. -/
abbrev NameSpace := List (String × PyVal)

/-- Dictionary lookup in a namespace. -/
def nsLookup (ns : NameSpace) (k : String) : Option PyVal :=
  (List.find? (fun p => p.1 == k) ns).map Prod.snd

/-- A single apostrophe character, used by Python reprs and error texts. -/
def pyQuote : String := String.singleton (Char.ofNat 39)

/-- Python error text for calling `.copy()` on a value that has no such
attribute, e.g. `
int object has no attribute copy` with the type name quoted. -/
def noCopyAttrMsg (ty : String) : String :=
  pyQuote ++ ty ++ pyQuote ++ " object has no attribute " ++ pyQuote ++ "copy" ++ pyQuote

/-- Behaviour of `.copy()` on a Python value, as invoked by
`result[ 'dataframe' ] = self.df.copy()` in `execute_code` (tools.py line
72).  Copying a DataFrame allocates a fresh equal table in the store; a dict
(and the `__builtins__` dict) has a shallow `copy` method returning an equal
value; pandas objects (`describable`) also carry `copy`; plain scalars and
modules have no `copy` attribute, so the call raises an `AttributeError`. -/
def pyCopy (store : Store) : PyVal → Except String (PyVal × Store)
  | .table r =>
      match List.get? store r with
      | some t => .ok (.table (List.length store), store ++ [t])
      | none => .error "invalid DataFrame reference"
  | .pyDict es => .ok (.pyDict es, store)
  | .builtinsDict ns => .ok (.builtinsDict ns, store)
  | .describable s => .ok (.describable s, store)
  | .pyStr _ => .error (noCopyAttrMsg "str")
  | .pyInt _ => .error (noCopyAttrMsg "int")
  | .pyBool _ => .error (noCopyAttrMsg "bool")
  | .pyModule _ => .error (noCopyAttrMsg "module")

/-- The final observation of running a snippet: the namespace it left behind,
the store of DataFrame objects after any allocations or in-place writes, and
the text the snippet wrote to stdout and stderr (both captured, since
`execute_code` redirects both streams into in-memory buffers). -/
structure SnippetRun where
  globalsOut : NameSpace
  storeOut : Store
  stdoutText : String
  stderrText : String

/-- Outcome of `exec(code, safe_globals)`: normal termination, or a raised
fault carrying its message; in the fault case `stdoutText` is the partial
stdout captured before the fault. -/
inductive SnippetOutcome where
  | ok (r : SnippetRun)
  | exn (msg : String) (r : SnippetRun)

/-- A snippet of Python code, modelled by its observable behaviour on the
namespace and store it is executed against. -/
abbrev Snippet := NameSpace → Store → SnippetOutcome

/-- Sandbox state of a `PandasCodeExecutor`: the DataFrame store together
with the values of the `self.df` and `self.original_df` attributes.  After
construction both are DataFrame references, but `execute_code` line 71
reassigns `self.df` to whatever value the snippet left bound under `df`, so
the field holds an arbitrary `PyVal`. -/
structure ExecutorState where
  store : Store
  df : PyVal
  original_df : PyVal

/-- Constructor `PandasCodeExecutor.__init__` (tools.py lines 17-19): takes a
reference to the caller's DataFrame and stores two fresh copies of it,
`self.df = dataframe.copy()` and `self.original_df = dataframe.copy()`.  The
`getD` default is a totality artifact; theorems assume a valid reference. -/
def PandasCodeExecutor.init (store : Store) (dataframe : Nat) : ExecutorState :=
  let t := (List.get? store dataframe).getD ⟨[]⟩
  { store := store ++ [t, t]
    df := .table (List.length store)
    original_df := .table (List.length store + 1) }

/-- The enumerated `__builtins__` whitelist of `execute_code` (tools.py
lines 30-49). -/
def builtinsWhitelist : List String :=
  ["len", "str", "int", "float", "bool", "list", "dict", "set", "tuple",
   "range", "enumerate", "zip", "sum", "max", "min", "abs", "round", "print"]

/-- The `safe_globals` namespace constructed by `execute_code` (tools.py
lines 25-50), in source order: `pd`, `np`, `df`, `original_df`,
`__builtins__`. -/
def safe_globals (es : ExecutorState) : NameSpace :=
  [("pd", .pyModule .pandas),
   ("np", .pyModule .numpy),
   ("df", es.df),
   ("original_df", es.original_df),
   ("__builtins__", .builtinsDict builtinsWhitelist)]

/-- Result dictionary of `execute_code` (tools.py lines 56-62). -/
structure ExecResult where
  success : Bool
  output : String
  error : String
  dataframe : Option PyVal
  vars : List (String × PyVal)

/-- Variable collection of `execute_code` (tools.py lines 74-80): every
binding other than `pd`, `np`, `df`, `original_df`, `__builtins__` is copied
into the result if it is a simple value (str/int/float/bool/list/dict), and
stringified if it instead has a `describe` attribute (pandas objects);
anything else is dropped. -/
def execVariables (globalsOut : NameSpace) (store : Store) : List (String × PyVal) :=
  List.filterMap (fun p =>
    if p.1 = "pd" ∨ p.1 = "np" ∨ p.1 = "df" ∨ p.1 = "original_df" ∨ p.1 = "__builtins__" then
      none
    else
      match p.2 with
      | .pyStr s => some (p.1, PyVal.pyStr s)
      | .pyInt n => some (p.1, PyVal.pyInt n)
      | .pyBool b => some (p.1, PyVal.pyBool b)
      | .pyDict es => some (p.1, PyVal.pyDict es)
      | .builtinsDict ns => some (p.1, PyVal.builtinsDict ns)
      | .table r => some (p.1, PyVal.pyStr (reprStr ((List.get? store r).getD ⟨[]⟩)))
      | .describable s => some (p.1, PyVal.pyStr s)
      | .pyModule _ => none) globalsOut

/-- Stderr post-processing of `execute_code` (tools.py lines 89-90): if the
stderr buffer is non-empty its contents are appended to the error field,
prefixed by a newline and `Stderr: `, regardless of success. -/
def stderrAppend (res : ExecResult) (stderrText : String) : ExecResult :=
  if stderrText = "" then res
  else { res with error := res.error ++ "\nStderr: " ++ stderrText }

/-- Method `PandasCodeExecutor.execute_code` (tools.py lines 21-92).  The
snippet runs against `safe_globals`; on normal termination, if the name `df`
is still bound (the source checks only `if 'df' in safe_globals`, not the
bound value's type), `self.df` is reassigned to that value and
`result[ 'dataframe' ]` is set to `self.df.copy()` — a call that itself can
raise (caught by the same `except`, after the reassignment of `self.df` has
already happened).  Then new variables are collected, `success` is set and
stdout is stored.  A fault leaves `success=false` with the fault's message
as the error text and the partial stdout.  Finally captured stderr, if any,
is appended to the error text. -/
def PandasCodeExecutor.execute_code (es : ExecutorState) (code : Snippet) :
    ExecutorState × ExecResult :=
  match code (safe_globals es) es.store with
  | .ok r =>
      match nsLookup r.globalsOut "df" with
      | some v =>
          match pyCopy r.storeOut v with
          | .ok (cv, store2) =>
              ({ store := store2, df := v, original_df := es.original_df },
               stderrAppend
                 { success := true
                   output := r.stdoutText
                   error := ""
                   dataframe := some cv
                   vars := execVariables r.globalsOut store2 } r.stderrText)
          | .error msg =>
              ({ store := r.storeOut, df := v, original_df := es.original_df },
               stderrAppend
                 { success := false
                   output := r.stdoutText
                   error := msg
                   dataframe := none
                   vars := [] } r.stderrText)
      | none =>
          ({ store := r.storeOut, df := es.df, original_df := es.original_df },
           stderrAppend
             { success := true
               output := r.stdoutText
               error := ""
               dataframe := none
               vars := execVariables r.globalsOut r.storeOut } r.stderrText)
  | .exn msg r =>
      ({ store := r.storeOut, df := es.df, original_df := es.original_df },
       stderrAppend
         { success := false
           output := r.stdoutText
           error := msg
           dataframe := none
           vars := [] } r.stderrText)

/-- A numpy floating-point result: a finite rational, NaN, or infinity.
Division by zero in numpy does not raise: `0/0` is NaN and `x/0` for
positive `x` is infinity. -/
inductive PFloat where
  | val (q : ℚ)
  | nan
  | inf
deriving DecidableEq, Repr

/-- Division as numpy performs it on a pandas Series. -/
def pandasDiv (a b : ℚ) : PFloat :=
  if b = 0 then (if a = 0 then .nan else .inf) else .val (a / b)

/-- Scalar multiplication on a numpy float. -/
def PFloat.mulConst : PFloat → ℚ → PFloat
  | .val q, c => .val (q * c)
  | .nan, _ => .nan
  | .inf, _ => .inf

/-- Null count of one column (`df[col].isnull().sum()`). -/
def Column.nullCount (c : Column) : Nat :=
  (c.cells.filter (fun x => x == Cell.null)).length

/-- The part of the info dictionary built by `get_dataframe_info` (tools.py
lines 191-198) that the claims are about: `shape`, `columns`,
`null_counts` and `null_percentages`. -/
structure DfInfo where
  shape : Nat × Nat
  columns : List String
  null_counts : List (String × Nat)
  null_percentages : List (String × PFloat)
deriving DecidableEq, Repr

/-- Statistics computation of `get_dataframe_info` (tools.py lines 191-198)
on an already-loaded table: `null_counts` is `df.isnull().sum()` per column
and `null_percentages` is `df.isnull().sum() / len(df) * 100` per column —
a numpy division, so a zero-row table yields NaN (0/0), not a raised
fault.  The function is total: it raises on no table, in particular not on
an empty one. -/
def get_dataframe_info_stats (dataframe : Table) : DfInfo :=
  { shape := (dataframe.nrows, dataframe.ncols)
    columns := dataframe.cols.map (fun c => c.name)
    null_counts := dataframe.cols.map (fun c => (c.name, c.nullCount))
    null_percentages := dataframe.cols.map (fun c =>
      (c.name, (pandasDiv (c.nullCount : ℚ) (dataframe.nrows : ℚ)).mulConst 100)) }

/-- Decides whether `needle` occurs as a contiguous substring of the
character list `hay` (the Python `in` operator on strings). -/
def isSubstr (needle : List Char) : List Char → Bool
  | [] => needle.isEmpty
  | c :: t => needle.isPrefixOf (c :: t) || isSubstr needle t

/-- Lower-casing of a string (`str.lower()`), as a character list. -/
def pyLower (s : String) : List Char := s.toList.map Char.toLower

/-- The Python `in` test `word in question_lower` used by
`suggest_analysis_steps`, with the question already lower-cased. -/
def pyInLower (word : String) (questionLower : List Char) : Bool :=
  isSubstr (pyLower word) questionLower

/-- Python repr of a list of strings, as interpolated by the f-strings in
`suggest_analysis_steps` (e.g. a three-element slice of column names). -/
def pyStrListRepr (xs : List String) : String :=
  "[" ++ String.intercalate ", " (xs.map (fun s => pyQuote ++ s ++ pyQuote)) ++ "]"

/-- Numeric column names, `df.select_dtypes(include=[np.number]).columns` . -/
def Table.numeric_cols (t : Table) : List String :=
  (t.cols.filter (fun c => c.dtype == Dtype.numeric)).map (fun c => c.name)

/-- Object-dtype column names, `df.select_dtypes(include=[ 'object' ]).columns` . -/
def Table.categorical_cols (t : Table) : List String :=
  (t.cols.filter (fun c => c.dtype == Dtype.object)).map (fun c => c.name)

/-- Reply of the `suggest_analysis_steps` tool: either the error dictionary
it returns when the CSV cannot be loaded, or the success dictionary with the
ordered suggestion list and fixed message. -/
inductive ToolReply where
  | errorObj (msg : String)
  | okSuggestions (suggestions : List String) (message : String)
deriving DecidableEq, Repr

/-- Tool `suggest_analysis_steps` (tools.py lines 239-300), past the
path-presence guard: its `load` argument is the outcome of
`pd.read_csv(csv_file_path)`.  On a load fault it returns the error
dictionary; otherwise it accumulates the suggestion list exactly as the
source does: three fixed general steps, a step 4 if any numeric columns
exist, a step 5 if any object-dtype columns exist, then one step 6 per
matching keyword group of the lower-cased question, in source order. -/
def suggest_analysis_steps (load : Except String Table) (user_question : String) :
    ToolReply :=
  match load with
  | .error e => .errorObj ("Failed to load CSV file: " ++ e)
  | .ok dataframe =>
    let suggestions :=
      ["1. Data Overview: Check dataframe shape, columns, and data types",
       "2. Data Quality: Check for missing values in " ++
         toString dataframe.ncols ++ " columns",
       "3. Statistical Summary: Generate descriptive statistics for numeric columns"]
    let numeric_cols := dataframe.numeric_cols
    let categorical_cols := dataframe.categorical_cols
    let suggestions := if numeric_cols ≠ [] then
        suggestions ++ ["4. Numeric Analysis: Analyze " ++
          toString numeric_cols.length ++ " numeric columns: " ++
          pyStrListRepr (numeric_cols.take 3) ++ "..."]
      else suggestions
    let suggestions := if categorical_cols ≠ [] then
        suggestions ++ ["5. Categorical Analysis: Analyze " ++
          toString categorical_cols.length ++ " categorical columns: " ++
          pyStrListRepr (categorical_cols.take 3) ++ "..."]
      else suggestions
    let question_lower := pyLower user_question
    let suggestions := if ["correlation", "relationship", "relate"].any
        (fun w => pyInLower w question_lower) then
        suggestions ++
          ["6. Correlation Analysis: Calculate correlations between numeric variables"]
      else suggestions
    let suggestions := if ["trend", "time", "date", "temporal"].any
        (fun w => pyInLower w question_lower) then
        suggestions ++
          ["6. Time Series Analysis: Look for date/time columns and analyze trends"]
      else suggestions
    let suggestions := if ["group", "category", "segment"].any
        (fun w => pyInLower w question_lower) then
        suggestions ++
          ["6. Group Analysis: Group data by categorical variables and analyze patterns"]
      else suggestions
    let suggestions := if ["outlier", "anomaly", "unusual"].any
        (fun w => pyInLower w question_lower) then
        suggestions ++
          ["6. Outlier Detection: Identify outliers in numeric columns"]
      else suggestions
    let suggestions := if ["distribution", "histogram", "spread"].any
        (fun w => pyInLower w question_lower) then
        suggestions ++
          ["6. Distribution Analysis: Analyze data distributions and create visualizations"]
      else suggestions
    .okSuggestions suggestions
      "Analysis steps suggested based on data and question"

/-- Message roles of the conversation history (langchain message classes). -/
inductive Role where
  | user
  | assistant
  | system
  | toolResult
deriving DecidableEq, Repr

/-- A tool request attached by the planner to an assistant message. -/
structure ToolCall where
  name : String
  args : List (String × String)
  id : String
deriving DecidableEq, Repr

/-- A conversation message.  Only assistant (AI) messages ever carry tool
calls; for the other roles the `tool_calls` list is empty, matching the
source's `hasattr(last_message, 'tool_calls')` guard, which fails for them. -/
structure Msg where
  role : Role
  content : String
  tool_calls : List ToolCall
deriving DecidableEq, Repr

/-- Edge decision `DataAnalystAgent._should_continue` (agent.py lines
170-180), identical to `CodingAgent._should_continue` (coding_agent.py):
inspects the newest message (`state[ 'messages' ][-1]`, so the message list
must be non-empty) and returns the string `continue` when it carries a
non-empty `tool_calls` list, and the string `end` otherwise. -/
def should_continue (messages : List Msg) (h : messages ≠ []) : String :=
  if (messages.getLast h).tool_calls ≠ [] then "continue" else "end"

/-- The conditional-edge table of `_create_graph` (agent.py lines 104-111):
the decision `continue` routes to the `tools` node (tool execution) and the
decision `end` routes to the graph's terminal `END` node. -/
def edgeTarget (decision : String) : String :=
  if decision = "continue" then "tools" else "END"

/-- Result dictionary of `DataAnalystAgent.run` (agent.py lines 234-248):
the response text, the success flag, and the error text present only in the
failure branch. -/
structure RunResult where
  response : String
  success : Bool
  error : Option String
deriving DecidableEq, Repr

/-- Final-response extraction of `run` (agent.py lines 228-232): the content
of the last message if it is an assistant (AI) message, else the empty
string. -/
def extractResponse (msgs : List Msg) : String :=
  match msgs.getLast? with
  | some m => if m.role = Role.assistant then m.content else ""
  | none => ""

/-- Method `DataAnalystAgent.run` (agent.py lines 183-248), abstracted over
the single graph invocation it performs (`self.graph.stream` plus
`get_state`), whose outcome is either the final message list or a raised
fault.  A fault — in particular one raised while invoking the planner
inside the graph — is caught by the `except` branch: the run is not
retried, and the caller receives `success=False`, the fault text in
`error`, and a response prefixed with `Error occurred: `. -/
def DataAnalystAgent.run (graphOutcome : Except String (List Msg)) : RunResult :=
  match graphOutcome with
  | .ok msgs =>
      { response := extractResponse msgs, success := true, error := none }
  | .error e =>
      { response := "Error occurred: " ++ e, success := false, error := some e }

/-! Concrete fixtures used by witnesses and counterexamples. -/

/-- A one-column, one-row table. -/
def t0 : Table := ⟨[⟨"a", Dtype.numeric, [Cell.intVal 1]⟩]⟩

/-- A modified variant of `t0`. -/
def t1 : Table := ⟨[⟨"a", Dtype.numeric, [Cell.intVal 2]⟩]⟩

/-- A sandbox freshly constructed over a store holding only `t0`; its two
copies of `t0` sit at store indices 1 and 2. -/
def es0 : ExecutorState := PandasCodeExecutor.init [t0] 0

/-- Observable behaviour of the snippet `print(len(df))`: it terminates
normally, leaves the namespace and store untouched, prints one line, and
writes nothing to stderr. -/
def snipRead : Snippet := fun g s => SnippetOutcome.ok ⟨g, s, "1\n", ""⟩

/-- Observable behaviour of the snippet `assert False`: it raises an
`AssertionError` whose message is the empty string, having produced no
output on either stream. -/
def snipAssertFalse : Snippet := fun g s => SnippetOutcome.exn "" ⟨g, s, "", ""⟩

/-- Observable behaviour of a snippet, such as
`df = dict(k=2)` written as a plain assignment, that rebinds the name `df`
to a Python dict — a non-tabular value that nevertheless has a `copy`
method. -/
def snipDict : Snippet := fun _ s =>
  SnippetOutcome.ok ⟨[("df", PyVal.pyDict [("k", 2)])], s, "", ""⟩

/-- Observable behaviour of the snippet `df = 5`: rebinds `df` to an int,
which has no `copy` method. -/
def snipInt : Snippet := fun _ s =>
  SnippetOutcome.ok ⟨[("df", PyVal.pyInt 5)], s, "", ""⟩

/-- Observable behaviour of a snippet that triggers a numpy runtime warning
(e.g. `np.array([0.0]) / 0`): normal termination, warning text on stderr. -/
def snipWarn : Snippet := fun g s =>
  SnippetOutcome.ok ⟨g, s, "", "RuntimeWarning: invalid value encountered"⟩

/-- A table whose second column is boolean: non-numeric, but not of the
`object` dtype either (as `pd.read_csv` produces for a True/False column). -/
def tblB : Table :=
  ⟨[⟨"a", Dtype.numeric, [Cell.intVal 1]⟩, ⟨"b", Dtype.boolean, [Cell.boolVal true]⟩]⟩

/-- A one-column table with zero rows. -/
def tEmpty : Table := ⟨[⟨"a", Dtype.numeric, []⟩]⟩

/-- Observable behaviour of a snippet such as `df = df.copy(); df[...] = ...`
condensed: it allocates one modified table `t1` at the end of the store and
rebinds `df` to it (index 3 over the three-table store of `es0`). -/
def snipModify : Snippet := fun _ s =>
  SnippetOutcome.ok ⟨[("df", PyVal.table 3)], s ++ [t1], "", ""⟩

/-- The three fixed general steps that every suggestion list begins with. -/
def generalSteps (t : Table) : List String :=
  ["1. Data Overview: Check dataframe shape, columns, and data types",
   "2. Data Quality: Check for missing values in " ++ toString t.ncols ++ " columns",
   "3. Statistical Summary: Generate descriptive statistics for numeric columns"]

/-- The numeric-column step, appended when numeric columns exist. -/
def numericStep (t : Table) : String :=
  "4. Numeric Analysis: Analyze " ++ toString t.numeric_cols.length ++
    " numeric columns: " ++ pyStrListRepr (t.numeric_cols.take 3) ++ "..."

/-- The categorical-column step, appended when object-dtype columns exist. -/
def categoricalStep (t : Table) : String :=
  "5. Categorical Analysis: Analyze " ++ toString t.categorical_cols.length ++
    " categorical columns: " ++ pyStrListRepr (t.categorical_cols.take 3) ++ "..."

/-- The five keyword groups scanned over the lower-cased question, in the
fixed order the source checks them, each paired with its topic-specific
suggestion (all reusing step number 6). -/
def keywordGroups : List (List String × String) :=
  [(["correlation", "relationship", "relate"],
    "6. Correlation Analysis: Calculate correlations between numeric variables"),
   (["trend", "time", "date", "temporal"],
    "6. Time Series Analysis: Look for date/time columns and analyze trends"),
   (["group", "category", "segment"],
    "6. Group Analysis: Group data by categorical variables and analyze patterns"),
   (["outlier", "anomaly", "unusual"],
    "6. Outlier Detection: Identify outliers in numeric columns"),
   (["distribution", "histogram", "spread"],
    "6. Distribution Analysis: Analyze data distributions and create visualizations")]

/-- Specification-style restatement of the suggestion heuristics, written
to follow the spec's words: the three fixed general steps, then the
numeric-column step if any numeric columns exist, then the
categorical-column step if any object-dtype columns exist, then one
topic-specific suggestion per matching keyword group in the fixed checking
order; a load failure yields the error object. -/
def suggestSpec (load : Except String Table) (q : String) : ToolReply :=
  match load with
  | .error e => .errorObj ("Failed to load CSV file: " ++ e)
  | .ok t =>
      .okSuggestions
        (generalSteps t ++
         (if t.numeric_cols ≠ [] then [numericStep t] else []) ++
         (if t.categorical_cols ≠ [] then [categoricalStep t] else []) ++
         (keywordGroups.filter
            (fun g => g.1.any (fun w => pyInLower w (pyLower q)))).map Prod.snd)
        "Analysis steps suggested based on data and question"

/-- An optional single step: the list holding `x` exactly when `c` holds. -/
def optStepP (c : Prop) [Decidable c] (x : String) : List String :=
  if c then [x] else []

/-! Helper lemmas about the sandbox. -/

theorem stderrAppend_success (res : ExecResult) (e : String) :
    (stderrAppend res e).success = res.success := by
  unfold stderrAppend; split <;> rfl

theorem stderrAppend_output (res : ExecResult) (e : String) :
    (stderrAppend res e).output = res.output := by
  unfold stderrAppend; split <;> rfl

theorem stderrAppend_dataframe (res : ExecResult) (e : String) :
    (stderrAppend res e).dataframe = res.dataframe := by
  unfold stderrAppend; split <;> rfl

theorem stderrAppend_error (res : ExecResult) (e : String) :
    (stderrAppend res e).error =
      res.error ++ (if e = "" then "" else "\nStderr: " ++ e) := by
  unfold stderrAppend; split <;> simp_all [String.append_assoc]

/-- Evaluation of `execute_code` on the branch where the snippet terminated
normally and left `df` bound to a valid DataFrame reference. -/
theorem execute_code_ok_table (es : ExecutorState) (code : Snippet) (r : SnippetRun)
    (i : Nat) (t : Table)
    (hrun : code (safe_globals es) es.store = SnippetOutcome.ok r)
    (hdf : nsLookup r.globalsOut "df" = some (PyVal.table i))
    (hi : List.get? r.storeOut i = some t) :
    PandasCodeExecutor.execute_code es code =
      ({ store := r.storeOut ++ [t], df := PyVal.table i, original_df := es.original_df },
       stderrAppend
         { success := true
           output := r.stdoutText
           error := ""
           dataframe := some (PyVal.table (List.length r.storeOut))
           vars := execVariables r.globalsOut (r.storeOut ++ [t]) } r.stderrText) := by
  unfold PandasCodeExecutor.execute_code
  rw [hrun]
  dsimp only
  rw [hdf]
  have hcopy : pyCopy r.storeOut (PyVal.table i) =
      Except.ok (PyVal.table (List.length r.storeOut), r.storeOut ++ [t]) := by
    unfold pyCopy; dsimp only; rw [hi]
  dsimp only
  rw [hcopy]

/-! Claim theorems. -/

/-- C1 (counterexample): the claim says the execution namespace contains
EXACTLY the working table, the original copy and the enumerated whitelist of
general-purpose primitives, with no filesystem primitive reachable.  But
`safe_globals` additionally binds the name `pd` — which is in none of those
three groups — to the pandas module, through which a filesystem primitive
(`read_csv`, invoked on this very module elsewhere in tools.py) is
reachable. -/
theorem C1_namespace_counterexample :
    "pd" ∈ (safe_globals es0).map Prod.fst ∧
    "pd" ∉ ("df" :: "original_df" :: builtinsWhitelist) ∧
    nsLookup (safe_globals es0) "pd" = some (PyVal.pyModule ModuleName.pandas) ∧
    ModuleName.pandas.providesFilesystemAccess = true := by
  refine ⟨?_, ?_, rfl, rfl⟩ <;> decide

/-- C1 (amended): for every call to the sandbox's execute operation, the
execution namespace binds exactly five names — `pd`, `np`, `df`,
`original_df`, `__builtins__` — where `df` is the working table,
`original_df` the copy of the original table, and `__builtins__` exactly the
fixed enumerated whitelist of general-purpose primitives, which contains no
filesystem, process or import primitive (in particular none of `open`,
`__import__`, `exec`, `eval`); however, the pandas module binding `pd` is
also reachable from the namespace and exposes a filesystem primitive. -/
theorem C1_namespace_amended (es : ExecutorState) :
    (safe_globals es).map Prod.fst = ["pd", "np", "df", "original_df", "__builtins__"] ∧
    nsLookup (safe_globals es) "df" = some es.df ∧
    nsLookup (safe_globals es) "original_df" = some es.original_df ∧
    nsLookup (safe_globals es) "__builtins__" = some (PyVal.builtinsDict builtinsWhitelist) ∧
    nsLookup (safe_globals es) "pd" = some (PyVal.pyModule ModuleName.pandas) ∧
    ModuleName.pandas.providesFilesystemAccess = true ∧
    "open" ∉ builtinsWhitelist ∧ "__import__" ∉ builtinsWhitelist ∧
    "exec" ∉ builtinsWhitelist ∧ "eval" ∉ builtinsWhitelist := by
  refine ⟨rfl, rfl, rfl, rfl, rfl, rfl, ?_, ?_, ?_, ?_⟩ <;> decide

/-- C2 (counterexample): the snippet `assert False` raises an
`AssertionError` whose message (its `str`) is the empty string, and writes
nothing to either stream; `execute_code` then returns `success=false` but
with an EMPTY error text, refuting the claimed non-empty error text. -/
theorem C2_fault_counterexample :
    (PandasCodeExecutor.execute_code es0 snipAssertFalse).2.success = false ∧
    (PandasCodeExecutor.execute_code es0 snipAssertFalse).2.error = "" := ⟨rfl, rfl⟩

/-- C2 (amended): for every snippet whose execution raises a fault,
`execute_code` catches the fault (it is a total function of the snippet's
outcome, so nothing propagates), returns `success=false`, still returns the
partial stdout captured before the fault, and its error text is the fault's
message followed by the captured stderr (prefixed by a `Stderr:` marker)
when stderr is non-empty — so the error text equals the fault's message
exactly when no stderr was captured, and in particular may be empty when
the fault's message is empty. -/
theorem C2_fault_policy_amended (es : ExecutorState) (code : Snippet)
    (msg : String) (r : SnippetRun)
    (hrun : code (safe_globals es) es.store = SnippetOutcome.exn msg r) :
    (PandasCodeExecutor.execute_code es code).2.success = false ∧
    (PandasCodeExecutor.execute_code es code).2.output = r.stdoutText ∧
    (PandasCodeExecutor.execute_code es code).2.error =
      msg ++ (if r.stderrText = "" then "" else "\nStderr: " ++ r.stderrText) := by
  unfold PandasCodeExecutor.execute_code
  rw [hrun]
  dsimp only
  exact ⟨stderrAppend_success _ _, stderrAppend_output _ _, stderrAppend_error _ _⟩

/-- C2 (witness): the amended fault policy applied to a concrete sandbox
and a concrete faulting snippet (message `boom`, partial stdout, a stderr
line). -/
theorem C2_fault_policy_amended_witness :
    (PandasCodeExecutor.execute_code es0
        (fun g s => SnippetOutcome.exn "boom" ⟨g, s, "partial out", "w"⟩)).2.success = false ∧
    (PandasCodeExecutor.execute_code es0
        (fun g s => SnippetOutcome.exn "boom" ⟨g, s, "partial out", "w"⟩)).2.output = "partial out" ∧
    (PandasCodeExecutor.execute_code es0
        (fun g s => SnippetOutcome.exn "boom" ⟨g, s, "partial out", "w"⟩)).2.error =
      "boom" ++ (if ("w" : String) = "" then "" else "\nStderr: " ++ "w") :=
  C2_fault_policy_amended es0
    (fun g s => SnippetOutcome.exn "boom" ⟨g, s, "partial out", "w"⟩)
    "boom" ⟨safe_globals es0, es0.store, "partial out", "w"⟩ rfl

/-- C5 (counterexample): after a snippet rebinds `df` to a Python dict — a
non-tabular value that happens to have a `copy` method — the sandbox DOES
adopt that non-tabular value as its new working table, reports success, and
even places the dict in the result's dataframe slot; the claim's "only if
that name still refers to a tabular value" guard does not exist in the
code, which tests only name presence. -/
theorem C5_adopt_counterexample :
    (PandasCodeExecutor.execute_code es0 snipDict).1.df = PyVal.pyDict [("k", 2)] ∧
    PyVal.isTable (PandasCodeExecutor.execute_code es0 snipDict).1.df = false ∧
    (PandasCodeExecutor.execute_code es0 snipDict).2.success = true ∧
    (PandasCodeExecutor.execute_code es0 snipDict).2.dataframe =
      some (PyVal.pyDict [("k", 2)]) := ⟨rfl, rfl, rfl, rfl⟩

/-- C5 (amended): after executing a snippet, whenever the working-table name
is still bound, the sandbox unconditionally adopts the bound value — tabular
or not — as its new working table; the copy into the result succeeds for any
value with a `copy` method, and when the value has no `copy` method the copy
attempt faults, yielding `success=false` with an empty result table while
the non-tabular value remains adopted. -/
theorem C5_adopt_amended (es : ExecutorState) (code : Snippet) (r : SnippetRun)
    (v : PyVal)
    (hrun : code (safe_globals es) es.store = SnippetOutcome.ok r)
    (hdf : nsLookup r.globalsOut "df" = some v) :
    (PandasCodeExecutor.execute_code es code).1.df = v ∧
    (∀ cv store2, pyCopy r.storeOut v = Except.ok (cv, store2) →
      (PandasCodeExecutor.execute_code es code).2.dataframe = some cv) ∧
    (∀ m, pyCopy r.storeOut v = Except.error m →
      (PandasCodeExecutor.execute_code es code).2.success = false ∧
      (PandasCodeExecutor.execute_code es code).2.dataframe = none) := by
  unfold PandasCodeExecutor.execute_code
  rw [hrun]
  dsimp only
  rw [hdf]
  dsimp only
  cases hp : pyCopy r.storeOut v with
  | ok p =>
      obtain ⟨cv0, st0⟩ := p
      refine ⟨rfl, ?_, ?_⟩
      · intro cv store2 h2
        cases h2
        exact stderrAppend_dataframe _ _
      · intro m h2
        cases h2
  | error m0 =>
      refine ⟨rfl, ?_, ?_⟩
      · intro cv store2 h2
        cases h2
      · intro m h2
        exact ⟨stderrAppend_success _ _, stderrAppend_dataframe _ _⟩

/-- C5 (witness): the amended adoption behaviour at a concrete sandbox and
the concrete snippet `df = 5`: the int is adopted as the working table, the
copy faults, and the result carries `success=false` with no table. -/
theorem C5_adopt_amended_witness :
    (PandasCodeExecutor.execute_code es0 snipInt).1.df = PyVal.pyInt 5 ∧
    (PandasCodeExecutor.execute_code es0 snipInt).2.success = false ∧
    (PandasCodeExecutor.execute_code es0 snipInt).2.dataframe = none := by
  have h := C5_adopt_amended es0 snipInt ⟨[("df", PyVal.pyInt 5)], es0.store, "", ""⟩
    (PyVal.pyInt 5) rfl rfl
  exact ⟨h.1, (h.2.2 (noCopyAttrMsg "int") rfl).1, (h.2.2 (noCopyAttrMsg "int") rfl).2⟩

/-- C10: for every snippet that executes normally while writing text to
stderr (leaving `df` bound to a valid DataFrame reference), the captured
stderr is appended to the result's error field even though the execution
succeeded — so a result with `success=true` carries a non-empty error
text. -/
theorem C10_stderr_on_success (es : ExecutorState) (code : Snippet)
    (r : SnippetRun) (i : Nat) (t : Table)
    (hrun : code (safe_globals es) es.store = SnippetOutcome.ok r)
    (hdf : nsLookup r.globalsOut "df" = some (PyVal.table i))
    (hi : List.get? r.storeOut i = some t)
    (hs : r.stderrText ≠ "") :
    (PandasCodeExecutor.execute_code es code).2.success = true ∧
    (PandasCodeExecutor.execute_code es code).2.error =
      "\nStderr: " ++ r.stderrText ∧
    (PandasCodeExecutor.execute_code es code).2.error ≠ "" := by
  have herr : (PandasCodeExecutor.execute_code es code).2.error =
      "\nStderr: " ++ r.stderrText := by
    rw [execute_code_ok_table es code r i t hrun hdf hi, stderrAppend_error]
    simp [hs]
  refine ⟨?_, herr, ?_⟩
  · rw [execute_code_ok_table es code r i t hrun hdf hi]
    exact stderrAppend_success _ _
  · rw [herr]
    intro hcontr
    have hlen := congrArg String.length hcontr
    rw [String.length_append] at hlen
    have h9 : ("\nStderr: ").length = 9 := rfl
    have h0 : ("" : String).length = 0 := rfl
    omega

/-- C10 (witness): a concrete sandbox and a concrete warning-emitting
snippet: success with the stderr text carried in the error field. -/
theorem C10_stderr_on_success_witness :
    (PandasCodeExecutor.execute_code es0 snipWarn).2.success = true ∧
    (PandasCodeExecutor.execute_code es0 snipWarn).2.error =
      "\nStderr: " ++ "RuntimeWarning: invalid value encountered" ∧
    (PandasCodeExecutor.execute_code es0 snipWarn).2.error ≠ "" :=
  C10_stderr_on_success es0 snipWarn
    ⟨safe_globals es0, es0.store, "", "RuntimeWarning: invalid value encountered"⟩
    1 t0 rfl rfl rfl (by decide)

/-- C3: for every snippet that executes normally and only reads the working
table — it leaves `df` bound to the executor's working-table reference and
does not mutate any existing table in the store (it may at most allocate new
ones) — `execute_code` returns `success=true`, the captured stdout is
exactly what the snippet printed, and the table placed in the result is a
copy value-equal to the input working table. -/
theorem C3_readonly_execute (store : Store) (i : Nat) (odf : PyVal) (t : Table)
    (code : Snippet) (r : SnippetRun) (ext : Store)
    (hi : List.get? store i = some t)
    (hrun : code (safe_globals ⟨store, PyVal.table i, odf⟩) store = SnippetOutcome.ok r)
    (hdf : nsLookup r.globalsOut "df" = some (PyVal.table i))
    (hext : r.storeOut = store ++ ext) :
    (PandasCodeExecutor.execute_code ⟨store, PyVal.table i, odf⟩ code).2.success = true ∧
    (PandasCodeExecutor.execute_code ⟨store, PyVal.table i, odf⟩ code).2.output =
      r.stdoutText ∧
    (PandasCodeExecutor.execute_code ⟨store, PyVal.table i, odf⟩ code).2.dataframe =
      some (PyVal.table (List.length r.storeOut)) ∧
    List.get? (PandasCodeExecutor.execute_code ⟨store, PyVal.table i, odf⟩ code).1.store
      (List.length r.storeOut) = some t := by
  have hlt : i < store.length := by
    rcases List.get?_eq_some.mp hi with ⟨h, _⟩
    exact h
  have hi2 : List.get? r.storeOut i = some t := by
    rw [hext, List.get?_append hlt]
    exact hi
  rw [execute_code_ok_table ⟨store, PyVal.table i, odf⟩ code r i t hrun hdf hi2]
  refine ⟨stderrAppend_success _ _, stderrAppend_output _ _, stderrAppend_dataframe _ _, ?_⟩
  exact List.get?_concat_length r.storeOut t

/-- C3 (witness): a concrete fresh executor over the table `t0` and the
concrete read-only snippet `print(len(df))`. -/
theorem C3_readonly_execute_witness :
    (PandasCodeExecutor.execute_code ⟨[t0], PyVal.table 0, PyVal.table 0⟩ snipRead).2.success
      = true ∧
    (PandasCodeExecutor.execute_code ⟨[t0], PyVal.table 0, PyVal.table 0⟩ snipRead).2.output
      = "1\n" ∧
    (PandasCodeExecutor.execute_code ⟨[t0], PyVal.table 0, PyVal.table 0⟩ snipRead).2.dataframe
      = some (PyVal.table 1) ∧
    List.get?
      (PandasCodeExecutor.execute_code ⟨[t0], PyVal.table 0, PyVal.table 0⟩ snipRead).1.store
      1 = some t0 :=
  C3_readonly_execute [t0] 0 (PyVal.table 0) t0 snipRead
    ⟨safe_globals ⟨[t0], PyVal.table 0, PyVal.table 0⟩, [t0], "1\n", ""⟩ [] rfl rfl rfl rfl

/-- C4: for every snippet that executes normally and reassigns the
working-table name to a (possibly modified) table — without mutating
existing store entries in place — the result's dataframe is a copy
value-equal to that modified table, while the sandbox's own copy of the
original table (allocated by the constructor at index `|store|+1`) and the
caller-supplied original table (at its index `c`) both still hold their
original value. -/
theorem C4_reassign_execute (store : Store) (c : Nat) (t t2 : Table)
    (code : Snippet) (r : SnippetRun) (ext : Store) (j : Nat)
    (hc : List.get? store c = some t)
    (hrun : code (safe_globals (PandasCodeExecutor.init store c))
              (PandasCodeExecutor.init store c).store = SnippetOutcome.ok r)
    (hdf : nsLookup r.globalsOut "df" = some (PyVal.table j))
    (hext : r.storeOut = (PandasCodeExecutor.init store c).store ++ ext)
    (hj : List.get? r.storeOut j = some t2) :
    (PandasCodeExecutor.execute_code (PandasCodeExecutor.init store c) code).2.dataframe =
      some (PyVal.table (List.length r.storeOut)) ∧
    List.get?
      (PandasCodeExecutor.execute_code (PandasCodeExecutor.init store c) code).1.store
      (List.length r.storeOut) = some t2 ∧
    (PandasCodeExecutor.execute_code (PandasCodeExecutor.init store c) code).1.original_df =
      PyVal.table (List.length store + 1) ∧
    List.get?
      (PandasCodeExecutor.execute_code (PandasCodeExecutor.init store c) code).1.store
      (List.length store + 1) = some t ∧
    List.get?
      (PandasCodeExecutor.execute_code (PandasCodeExecutor.init store c) code).1.store
      c = some t := by
  have hst : (PandasCodeExecutor.init store c).store = store ++ [t, t] := by
    unfold PandasCodeExecutor.init
    rw [hc]
    rfl
  have hlt : c < store.length := by
    rcases List.get?_eq_some.mp hc with ⟨h, _⟩
    exact h
  rw [execute_code_ok_table (PandasCodeExecutor.init store c) code r j t2 hrun hdf hj]
  have hfinal : r.storeOut ++ [t2] = (store ++ [t, t]) ++ (ext ++ [t2]) := by
    rw [hext, hst, List.append_assoc]
  refine ⟨stderrAppend_dataframe _ _, List.get?_concat_length r.storeOut t2, rfl, ?_, ?_⟩
  · show List.get? (r.storeOut ++ [t2]) (List.length store + 1) = some t
    rw [hfinal]
    rw [List.get?_append (by simp)]
    rw [List.get?_append_right (by simp)]
    simp
  · show List.get? (r.storeOut ++ [t2]) c = some t
    rw [hfinal]
    rw [List.get?_append (by simp; omega)]
    rw [List.get?_append hlt]
    exact hc

/-- C4 (witness): the concrete sandbox `es0` over the caller table `t0` and
the concrete snippet `snipModify`, which rebinds `df` to the modified table
`t1`: the result holds `t1` while both original copies still hold `t0`. -/
theorem C4_reassign_execute_witness :
    (PandasCodeExecutor.execute_code (PandasCodeExecutor.init [t0] 0) snipModify).2.dataframe =
      some (PyVal.table 4) ∧
    List.get?
      (PandasCodeExecutor.execute_code (PandasCodeExecutor.init [t0] 0) snipModify).1.store
      4 = some t1 ∧
    (PandasCodeExecutor.execute_code (PandasCodeExecutor.init [t0] 0) snipModify).1.original_df =
      PyVal.table 2 ∧
    List.get?
      (PandasCodeExecutor.execute_code (PandasCodeExecutor.init [t0] 0) snipModify).1.store
      2 = some t0 ∧
    List.get?
      (PandasCodeExecutor.execute_code (PandasCodeExecutor.init [t0] 0) snipModify).1.store
      0 = some t0 :=
  C4_reassign_execute [t0] 0 t0 t1 snipModify
    ⟨[("df", PyVal.table 3)], (PandasCodeExecutor.init [t0] 0).store ++ [t1], "", ""⟩
    [t1] 3 rfl rfl rfl rfl rfl

/-- C6 (counterexample): on a one-column table with zero rows the inspect
statistics do not raise and the null counts are zero, but the null
percentage of the column is the numpy quotient 0/0 — NaN — and not a
zero-valued statistic as claimed. -/
theorem C6_empty_table_counterexample :
    (get_dataframe_info_stats tEmpty).null_counts = [("a", 0)] ∧
    (get_dataframe_info_stats tEmpty).null_percentages = [("a", PFloat.nan)] ∧
    PFloat.nan ≠ PFloat.val 0 := by
  refine ⟨rfl, ?_, by decide⟩
  show [("a", (pandasDiv ((0 : Nat) : ℚ) ((0 : Nat) : ℚ)).mulConst 100)] =
    [("a", PFloat.nan)]
  norm_num [pandasDiv, PFloat.mulConst]

/-- C6 (amended): for every table with zero rows, the inspect operation does
not raise (the statistics function is total) and returns zero null counts
for every column; the null percentages, however, are the NaN quotient 0/0
for every column, not zero. -/
theorem C6_empty_table_amended (t : Table) (h : ∀ c ∈ t.cols, c.cells = []) :
    (get_dataframe_info_stats t).null_counts = t.cols.map (fun c => (c.name, 0)) ∧
    (get_dataframe_info_stats t).null_percentages =
      t.cols.map (fun c => (c.name, PFloat.nan)) := by
  have hnull : ∀ c ∈ t.cols, c.nullCount = 0 := by
    intro c hc
    simp [Column.nullCount, h c hc]
  have hrows : t.nrows = 0 := by
    unfold Table.nrows
    cases hcols : t.cols with
    | nil => rfl
    | cons c cs =>
        show c.cells.length = 0
        rw [h c (by rw [hcols]; exact List.mem_cons_self c cs)]
        rfl
  constructor
  · apply List.map_congr_left
    intro c hc
    rw [hnull c hc]
  · apply List.map_congr_left
    intro c hc
    rw [hnull c hc, hrows]
    norm_num [pandasDiv, PFloat.mulConst]

/-- C6 (witness): the amended statement applied to the concrete zero-row
table `tEmpty`. -/
theorem C6_empty_table_amended_witness :
    (get_dataframe_info_stats tEmpty).null_counts =
      tEmpty.cols.map (fun c => (c.name, 0)) ∧
    (get_dataframe_info_stats tEmpty).null_percentages =
      tEmpty.cols.map (fun c => (c.name, PFloat.nan)) :=
  C6_empty_table_amended tEmpty (by decide)

/-- C7: for every non-empty message history whose newest message is an
assistant message, the transition decision of `_should_continue` is the
string `continue` — routed by the graph's conditional edge to the `tools`
node (tool execution) — exactly when the message carries at least one tool
call, and the string `end` — routed to the terminal `END` node — exactly
when it carries none; these two strings are the only possible outcomes. -/
theorem C7_transition_exhaustive (messages : List Msg) (h : messages ≠ [])
    (ha : (messages.getLast h).role = Role.assistant) :
    ((messages.getLast h).tool_calls ≠ [] →
      should_continue messages h = "continue" ∧
      edgeTarget (should_continue messages h) = "tools") ∧
    ((messages.getLast h).tool_calls = [] →
      should_continue messages h = "end" ∧
      edgeTarget (should_continue messages h) = "END") ∧
    (should_continue messages h = "continue" ∨ should_continue messages h = "end") := by
  have e1 : edgeTarget "continue" = "tools" := by decide
  have e2 : edgeTarget "end" = "END" := by decide
  unfold should_continue
  by_cases hc : (messages.getLast h).tool_calls = []
  · rw [if_neg (fun hne => hne hc)]
    exact ⟨fun hne => absurd hc hne, fun _ => ⟨rfl, e2⟩, Or.inr rfl⟩
  · rw [if_pos hc]
    exact ⟨fun _ => ⟨rfl, e1⟩, fun he => absurd he hc, Or.inl rfl⟩

/-- C7 (witness): an assistant message with one tool call decides
`continue`, and an assistant message with no tool call decides `end`. -/
theorem C7_transition_exhaustive_witness :
    should_continue
      [⟨Role.assistant, "", [⟨"execute_pandas_code", [("code", "print(len(df))")], "call-1"⟩]⟩]
      (by decide) = "continue" ∧
    should_continue [⟨Role.assistant, "the answer", []⟩] (by decide) = "end" := by
  constructor
  · exact ((C7_transition_exhaustive
      [⟨Role.assistant, "", [⟨"execute_pandas_code", [("code", "print(len(df))")], "call-1"⟩]⟩]
      (by decide) rfl).1 (by decide)).1
  · exact ((C7_transition_exhaustive
      [⟨Role.assistant, "the answer", []⟩] (by decide) rfl).2.1 rfl).1

/-- C8: every invocation of `run` yields a result carrying a success flag —
true exactly when the single graph invocation (which contains every planner
call) returned normally.  When a fault is raised, `run` performs no retry
(it consumes the one outcome), returns `success=false`, carries the fault
text in the error field, and its response text is the fault text behind the
non-empty prefix `Error occurred: `, so the response is never empty on
failure. -/
theorem C8_run_fault_policy (e : String) (msgs : List Msg) :
    (DataAnalystAgent.run (Except.error e)).success = false ∧
    (DataAnalystAgent.run (Except.error e)).error = some e ∧
    (DataAnalystAgent.run (Except.error e)).response = "Error occurred: " ++ e ∧
    (DataAnalystAgent.run (Except.error e)).response ≠ "" ∧
    (DataAnalystAgent.run (Except.ok msgs)).success = true := by
  refine ⟨rfl, rfl, rfl, ?_, rfl⟩
  show "Error occurred: " ++ e ≠ ""
  intro hcontr
  have hlen := congrArg String.length hcontr
  rw [String.length_append] at hlen
  have h16 : ("Error occurred: ").length = 16 := rfl
  have h0 : ("" : String).length = 0 := rfl
  omega

/-- C9 (counterexample): `tblB` is loadable (a CSV with a numeric column and
a True/False column) and has a non-numeric column — `b`, of boolean dtype —
yet the suggestion list contains no categorical-column step (no step `5.`):
the source appends that step only for object-dtype columns, not for every
non-numeric column as the claim states. -/
theorem C9_suggest_counterexample :
    suggest_analysis_steps (Except.ok tblB) "" =
      ToolReply.okSuggestions
        ["1. Data Overview: Check dataframe shape, columns, and data types",
         "2. Data Quality: Check for missing values in 2 columns",
         "3. Statistical Summary: Generate descriptive statistics for numeric columns",
         "4. Numeric Analysis: Analyze 1 numeric columns: " ++ pyStrListRepr ["a"] ++ "..."]
        "Analysis steps suggested based on data and question" ∧
    tblB.cols.map (fun c => c.dtype) = [Dtype.numeric, Dtype.boolean] ∧
    Dtype.boolean ≠ Dtype.numeric ∧ Dtype.boolean ≠ Dtype.object := by
  exact ⟨rfl, rfl, by decide, by decide⟩

/-- C9 (amended): for every load outcome and question text the tool result
equals the specification-style form: an error object on load failure (the
tool never raises), and otherwise the ordered list beginning with the three
fixed general steps, followed by the numeric-column step if any numeric
columns exist, the categorical-column step if any OBJECT-dtype columns
exist (other non-numeric dtypes, e.g. boolean, trigger neither step), and
one topic-specific suggestion per keyword group matching the lower-cased
question, in the fixed checking order, each reusing step number 6. -/
theorem append_stepP (l : List String) (c : Prop) [Decidable c] (x : String) :
    (if c then l ++ [x] else l) = l ++ optStepP c x := by
  unfold optStepP
  split <;> simp

theorem if_singletonP (c : Prop) [Decidable c] (x : String) :
    (if c then [x] else ([] : List String)) = optStepP c x := rfl

theorem filter_snd_cons (p : List String × String → Bool) (a : List String × String)
    (l : List (List String × String)) :
    ((a :: l).filter p).map Prod.snd =
      optStepP (p a = true) a.2 ++ (l.filter p).map Prod.snd := by
  unfold optStepP
  cases hpa : p a <;> simp [List.filter_cons, hpa]

theorem C9_suggest_amended (load : Except String Table) (q : String) :
    suggest_analysis_steps load q = suggestSpec load q := by
  cases load with
  | error e => rfl
  | ok t =>
      unfold suggest_analysis_steps suggestSpec generalSteps numericStep
        categoricalStep keywordGroups
      dsimp only
      rw [append_stepP, append_stepP, append_stepP, append_stepP, append_stepP,
        append_stepP, append_stepP]
      rw [filter_snd_cons, filter_snd_cons, filter_snd_cons, filter_snd_cons,
        filter_snd_cons]
      rw [if_singletonP, if_singletonP]
      dsimp only
      simp only [List.filter_nil, List.map_nil, List.append_nil, List.append_assoc]
